import Mathlib

set_option autoImplicit false

/-!
Verification of the Foster Finance deal-assistant script (`app.py`): the
keyword row-scoring heuristic, top-3 context selection, the markdown context
table and prompt assembly, required-header validation, sidebar model
selection, and the retry policy wrapped around the generation call.

The table uploaded from CSV is modelled as a header (column names) plus data
rows of text cells; the pandas/numpy operations the script uses are embedded
as explicit list functions, each annotated with the line of `app.py` it
embeds.
-/

namespace FF

/-- The uploaded table (`df` in `app.py`): the header `cols` and the data
rows, each row a list of cell values aligned with `cols`. -/
structure Table where
  cols : List String
  rows : List (List String)
deriving Repr, DecidableEq

/-- `required_columns` (app.py line 120). -/
def required_columns : List String :=
  ["Client Requirements", "Client Objectives", "Product Features",
   "Why this Product was Selected"]

/-- `missing = [col for col in required_columns if col not in df.columns]`
(app.py line 121). -/
def missing (t : Table) : List String :=
  required_columns.filter (fun c => ! t.cols.contains c)

/-- Python substring containment `pat in s`, on the character lists of the
two strings: true iff `pat` occurs contiguously in `s` (an empty pattern
always occurs). -/
def strHasSub (s pat : String) : Bool :=
  (List.range (s.data.length + 1)).any (fun i => pat.data.isPrefixOf (s.data.drop i))

/-- Python `str.lower()` on ASCII text: every character lowercased. -/
def py_lower (s : String) : String :=
  String.mk (s.data.map Char.toLower)

/-- Python `str.replace(',', '')`: every comma removed. -/
def py_remove_commas (s : String) : String :=
  String.mk (s.data.filter (fun c => c != ','))

/-- Helper for `py_split`: walks the characters with the (reversed) current
word as accumulator, closing a word at each whitespace run. -/
def py_split_aux : List Char → List Char → List String
  | [], [] => []
  | [], acc => [String.mk acc.reverse]
  | c :: cs, acc =>
    if c.isWhitespace then
      match acc with
      | [] => py_split_aux cs []
      | _ :: _ => String.mk acc.reverse :: py_split_aux cs []
    else py_split_aux cs (c :: acc)

/-- Python's bare `str.split()`: split on whitespace runs, discarding empty
pieces. -/
def py_split (s : String) : List String :=
  py_split_aux s.data []

/-- The word list of the normalized query, before the set is formed:
`user_input.lower().replace(',', '').split()` (app.py line 146). -/
def query_words (user_input : String) : List String :=
  py_split (py_remove_commas (py_lower user_input))

/-- `user_terms = set(user_input.lower().replace(',', '').split())` (app.py
line 146): the distinct words, modelled as the deduplicated word list
(Python set membership is string equality; the score below only reads the
set through membership, so the order of this list is irrelevant). -/
def user_terms (user_input : String) : List String :=
  (query_words user_input).dedup

/-- Joins strings with a separator between consecutive elements
(`sep.join(...)` / `String.intercalate`, embedded structurally). -/
def strIntercalate (sep : String) : List String → String
  | [] => ""
  | [x] => x
  | x :: y :: xs => x ++ sep ++ strIntercalate sep (y :: xs)

/-- `str(row.values)` (app.py line 148): numpy renders the object array of a
row's cells as the cells' reprs separated by single spaces inside square
brackets, a text cell printed between single quotes. -/
def row_values_str (row : List String) : String :=
  "[" ++ strIntercalate " " (row.map (fun v => "'" ++ v ++ "'")) ++ "]"

/-- `row_text = str(row.values).lower()` (app.py line 148). -/
def row_text (row : List String) : String :=
  py_lower (row_values_str row)

/-- `calculate_score` (app.py lines 147-149):
`sum(1 for term in user_terms if term in row_text)`. -/
def calculate_score (terms : List String) (row : List String) : Nat :=
  terms.countP (fun tm => strHasSub (row_text row) tm)

/-- The score column `df['match_score'] = df.apply(calculate_score, axis=1)`
(app.py line 151): one score per row, in row order. -/
def scores (q : String) (t : Table) : List Nat :=
  t.rows.map (calculate_score (user_terms q))

/-- A scored row position: the row's original index and its match score. -/
structure Scored where
  idx : Nat
  score : Nat
deriving Repr, DecidableEq

/-- The scored rows in original order, original indices attached. -/
def score_table (q : String) (t : Table) : List Scored :=
  (scores q t).enum.map (fun p => ⟨p.1, p.2⟩)

/-- The order this model sorts by: match score descending, original row
position as the tie-break. Note the tie-break is an idealisation: the code's
`df.sort_values(by='match_score', ascending=False)` (app.py line 152) uses
pandas' default `kind='quicksort'` (numpy introsort), which pandas documents
as not stable — above numpy's small-array insertion-sort threshold it may
reorder equal-score rows — so the real program fixes the order of ties only
deterministically, not to original row position. This model is therefore
relied on only for properties insensitive to the relative order of
equal-score rows: the selection's size, its by-score ordering, the score
values themselves, and results that are functions of the score column
alone. -/
def rankLE (a b : Scored) : Prop :=
  b.score < a.score ∨ (a.score = b.score ∧ a.idx ≤ b.idx)

instance : DecidableRel rankLE := fun a b =>
  inferInstanceAs (Decidable (b.score < a.score ∨ (a.score = b.score ∧ a.idx ≤ b.idx)))

instance : IsTotal Scored rankLE := by
  constructor
  intro a b
  unfold rankLE
  omega

instance : IsTrans Scored rankLE := by
  constructor
  intro a b c hab hbc
  unfold rankLE at *
  omega

/-- `df.sort_values(by='match_score', ascending=False)` (app.py line 152), as
the list of scored row positions in by-score order; ties are placed in
original row order, which the code's default quicksort does not guarantee
(see `rankLE`). -/
def sorted_rows (q : String) (t : Table) : List Scored :=
  List.insertionSort rankLE (score_table q t)

/-- `matches = df.sort_values(by='match_score', ascending=False).head(3)`
(app.py line 152). -/
def top_matches (q : String) (t : Table) : List Scored :=
  (sorted_rows q t).take 3

/-- The cell of column `c` in a row: the value at the column's position in
the header (missing columns read as the empty cell). -/
def getCell (cols : List String) (row : List String) (c : String) : String :=
  match cols.findIdx? (fun c2 => c2 == c) with
  | some i => row.getD i ""
  | none => ""

/-- `matches[required_columns]` applied to one row (app.py line 155): the row
restricted to the four required columns, in their canonical order. -/
def proj_required (cols : List String) (row : List String) : List String :=
  required_columns.map (getCell cols row)

/-- One pipe-table line of `DataFrame.to_markdown` output (tabulate's
`pipe` format; the cell padding that tabulate adds is elided). -/
def mdRow (cells : List String) : String :=
  "| " ++ strIntercalate " | " cells ++ " |"

/-- `.to_markdown(index=False)` (app.py line 155): a header line, the
alignment separator line, then one line per data row. -/
def to_markdown (cols : List String) (rows : List (List String)) : String :=
  strIntercalate "\n" (mdRow cols :: mdRow (cols.map (fun _ => ":---")) :: rows.map mdRow)

/-- The data rows selected into `matches`, in sorted order. -/
def match_rows (q : String) (t : Table) : List (List String) :=
  (top_matches q t).map (fun s => t.rows.getD s.idx [])

/-- `matches['match_score'].max()` (app.py line 154) as it is used on line
154: the maximum of the selected rows' scores, with the empty column's
pandas `NaN` (for which `NaN > 0` is false) modelled by `0`. -/
def max_match_score (q : String) (t : Table) : Nat :=
  ((top_matches q t).map (fun s => s.score)).foldr max 0

/-- `context_type = "Historic Matches" if matches['match_score'].max() > 0
else "General Logic"` (app.py line 154). -/
def context_type (q : String) (t : Table) : String :=
  if 0 < max_match_score q t then "Historic Matches" else "General Logic"

/-- `context_data = matches[required_columns].to_markdown(index=False)`
(app.py line 155). -/
def context_data (q : String) (t : Table) : String :=
  to_markdown required_columns ((match_rows q t).map (proj_required t.cols))

/-- The f-string `prompt` (app.py lines 162-184): the fixed template text with
the user input, `context_type` and `context_data` interpolated at their three
placeholders. `ind` is the 24-space indentation the triple-quoted source
carries on every template line. -/
def prompt (user_input : String) (t : Table) : String :=
  let ind := "                        "
  "\n" ++ ind ++ "Role: Senior Credit Analyst at Foster Finance.\n"
  ++ ind ++ "Task: Write a deal summary ADAPTING the style of the Reference Database to the User's new scenario.\n\n"
  ++ ind ++ "USER INPUT (New Deal Details): \n"
  ++ ind ++ "\"" ++ user_input ++ "\"\n\n"
  ++ ind ++ "REFERENCE DATABASE (" ++ context_type user_input t ++ "):\n"
  ++ ind ++ context_data user_input t ++ "\n\n"
  ++ ind ++ "INSTRUCTIONS:\n"
  ++ ind ++ "1. **Structure:** Output a numbered list (1, 2, 3) followed by a separate paragraph for the 4th point.\n"
  ++ ind ++ "2. **Tone:** Mimic the sentence structure of the Reference Database exactly.\n"
  ++ ind ++ "3. **Constraint:** Do NOT use bold headers (e.g., NO \"**Requirement:**\"). Just start the sentence.\n\n"
  ++ ind ++ "SPECIFIC MAPPING INSTRUCTIONS:\n"
  ++ ind ++ "* **Bullet 1 (Requirements):** Mimic the Reference Database sentence structure, BUT add 10-15% more detail by explicitly stating the likely credit priority (e.g., \"prioritising competitive rates\" or \"maximum borrowing\") if not already stated.\n"
  ++ ind ++ "* **Bullet 2 (Objectives):** Strictly mimic the 'Client Objectives' column style.\n"
  ++ ind ++ "* **Bullet 3 (Features):** Strictly mimic the 'Product Features' column style.\n"
  ++ ind ++ "* **Point 4 (Selection):** Strictly mimic the 'Why this Product was Selected' column logic.\n\n"
  ++ ind ++ "Generate strict Markdown output.\n" ++ ind

/-! The provider call and its tenacity retry policy (app.py lines 186-191). -/

/-- A provider failure, carried as the exception's class name as it appears
in a `repr` (e.g. `NotFound`, `ResourceExhausted`). -/
structure ProviderErr where
  name : String
deriving Repr, DecidableEq

/-- The behaviour of `model.generate_content(prompt).text` across successive
attempts: attempt number (1-based) to outcome. -/
abbrev Provider := Nat → Except ProviderErr String

/-- `wait_exponential(multiplier=1, min=2, max=10)` (app.py line 187):
tenacity computes the wait after the `n`-th failed attempt as
`max(min, min(multiplier * 2^n, max))` (with the lower bound also at least
0, vacuous over `Nat`). -/
def wait_exponential (multiplier mn mx n : Nat) : Nat :=
  max (max 0 mn) (min (multiplier * 2 ^ n) mx)

/-- The wait tenacity inserts after the `n`-th failed attempt of `run_ai`,
with the decorator's parameters `multiplier=1, min=2, max=10`. -/
def run_ai_wait (n : Nat) : Nat :=
  wait_exponential 1 2 10 n

/-- The outcome of one `run_ai()` call: the value returned or the last
attempt's error, how many provider attempts were made, and the backoff waits
tenacity slept between consecutive attempts. -/
structure RunOutcome where
  result : Except ProviderErr String
  attempts : Nat
  waits : List Nat
deriving Repr

/-- `run_ai` under `@retry(stop=stop_after_attempt(3),
wait=wait_exponential(multiplier=1, min=2, max=10))` (app.py lines 187-191):
tenacity's default retry predicate retries on every `Exception`, so each
failure before the third attempt leads to a wait and a fresh call; after the
third failed attempt the stop condition holds and the last error surfaces
(tenacity raises a `RetryError` wrapping the last attempt). -/
def run_ai (gen : Provider) : RunOutcome :=
  match gen 1 with
  | .ok s => ⟨.ok s, 1, []⟩
  | .error _ =>
    match gen 2 with
    | .ok s => ⟨.ok s, 2, [run_ai_wait 1]⟩
    | .error _ =>
      match gen 3 with
      | .ok s => ⟨.ok s, 3, [run_ai_wait 1, run_ai_wait 2]⟩
      | .error e => ⟨.error e, 3, [run_ai_wait 1, run_ai_wait 2]⟩

/-- `err_msg = str(e)` for the exception leaving `run_ai` after all three
attempts failed: tenacity raises `RetryError[<Future at 0x... state=finished
raised Name>]`, whose text carries the last exception's class name. -/
def retry_err_msg (e : ProviderErr) : String :=
  "RetryError[<Future at 0x0 state=finished raised " ++ e.name ++ ">]"

/-- The three user-facing failure classes of the handler (app.py lines
196-206). -/
inductive ErrClass where
  | modelUnavailable
  | quotaExhausted
  | generic
deriving Repr, DecidableEq

/-- The `except` branch (app.py lines 201-206): `"404" in err_msg or
"NotFound" in err_msg` gives the model-unavailable warning, else `"429" in
err_msg or "ResourceExhausted" in err_msg` gives the quota warning, else the
generic technical error is shown. -/
def classify_error (err_msg : String) : ErrClass :=
  if strHasSub err_msg "404" || strHasSub err_msg "NotFound" then .modelUnavailable
  else if strHasSub err_msg "429" || strHasSub err_msg "ResourceExhausted" then .quotaExhausted
  else .generic

/-! Sidebar model listing and selection (app.py lines 51-107). -/

/-- What `genai.list_models()` yields per model: its name and its supported
generation methods. -/
structure ModelInfo where
  name : String
  supported_generation_methods : List String
deriving Repr, DecidableEq

/-- `get_available_models` (app.py lines 51-60): on success the names of the
models supporting `generateContent`; any exception from the listing call is
swallowed and the empty list returned. -/
def get_available_models (listing : Except String (List ModelInfo)) : List String :=
  match listing with
  | .error _ => []
  | .ok ms =>
    (ms.filter (fun m => m.supported_generation_methods.contains "generateContent")).map
      (fun m => m.name)

/-- The `default_ix` scan (app.py lines 85-97): the first model whose name
contains `gemini-3.0-flash` or `gemini-3-flash`; if the loop finishes without
a break, the first whose name contains `gemini-1.5-flash`; else index 0. -/
def default_ix (ms : List String) : Nat :=
  match ms.findIdx? (fun m => strHasSub m "gemini-3.0-flash" || strHasSub m "gemini-3-flash") with
  | some i => i
  | none =>
    match ms.findIdx? (fun m => strHasSub m "gemini-1.5-flash") with
    | some i => i
    | none => 0

/-- What the sidebar leaves behind (app.py lines 75-107): the model the
selectbox holds (if any) and whether the `Connection Failed` error was
shown. -/
structure SidebarResult where
  selected_model : Option String
  connection_failed : Bool
deriving Repr, DecidableEq

/-- The sidebar logic (app.py lines 75-107): with no API key no model is
selected; with a key, the available models are listed, the selectbox holds
the entry at the user's override index (defaulting to `default_ix`), and an
empty listing leaves `selected_model = None` and shows the connection
error. -/
def sidebar (api_key : String) (listing : Except String (List ModelInfo))
    (override : Option Nat) : SidebarResult :=
  if api_key = "" then ⟨none, false⟩
  else
    let av := get_available_models listing
    match av with
    | [] => ⟨none, true⟩
    | _ => ⟨some (av.getD (override.getD (default_ix av)) ""), false⟩

/-! The main generation flow (app.py lines 116-209). -/

/-- One user action's inputs: the validated-or-not uploaded table, the
sidebar state, the query text, whether the generate button fired, and the
provider's behaviour for this action. -/
structure AppInput where
  table : Table
  api_key : String
  user_input : String
  selected_model : Option String
  generate_btn : Bool
  gen : Provider


/-- What one run of the script's main block shows for one user action. -/
inductive Outcome where
  | errMissingHeaders (cols : List String)
  | noAction
  | warnNoApiKey
  | errNoModel
  | shown (prompt response : String)
  | genFailed (prompt : String) (cls : ErrClass)
deriving Repr, DecidableEq

/-- The main block (app.py lines 116-209) for one action, after a successful
CSV parse. Header validation (lines 120-124) halts with the missing columns;
otherwise `if generate_btn and api_key and user_input:` (line 140, Python
truthiness: a string is truthy iff non-empty) guards the generation branch,
whose inner check (line 141) rejects a missing model selection; scoring,
prompt assembly and the retried provider call follow, a full retry failure
being classified by the `except` handler; `elif generate_btn and not
api_key:` (line 208) shows the API-key warning; any remaining combination
renders nothing further. -/
def app_run (inp : AppInput) : Outcome :=
  if missing inp.table ≠ [] then .errMissingHeaders (missing inp.table)
  else if inp.generate_btn ∧ inp.api_key ≠ "" ∧ inp.user_input ≠ "" then
    match inp.selected_model with
    | none => .errNoModel
    | some _ =>
      let p := prompt inp.user_input inp.table
      match (run_ai inp.gen).result with
      | .ok s => .shown p s
      | .error e => .genFailed p (classify_error (retry_err_msg e))
  else if inp.generate_btn ∧ inp.api_key = "" then .warnNoApiKey
  else .noAction

/-- Follows the spec's words for claim C1 (section 4.1): the number of
distinct terms of the normalized query — lowercased, commas stripped, split
on whitespace, duplicates collapsed into a set — that occur as substrings
anywhere in the lowercased stringification of the record's column values,
each term counted at most once. -/
def spec_score (q : String) (row : List String) : Nat :=
  ((query_words q).toFinset.filter (fun tm => strHasSub (row_text row) tm = true)).card

/-! ### Helper lemmas -/

theorem length_filter_dedup (l : List String) (p : String → Bool) :
    (l.dedup.filter p).length = (l.filter p).dedup.length := by
  apply List.Perm.length_eq
  rw [List.perm_ext_iff_of_nodup ((l.nodup_dedup).filter p) (l.filter p).nodup_dedup]
  intro a
  simp [List.mem_filter, List.mem_dedup]

theorem calculate_score_eq_spec_score (q : String) (row : List String) :
    calculate_score (user_terms q) row = spec_score q row := by
  unfold calculate_score spec_score user_terms
  rw [List.countP_eq_length_filter, length_filter_dedup, ← List.card_toFinset,
    List.toFinset_filter]

/-- Characterization of Python substring containment: `pat` occurs in `s` iff
`s`'s characters split as some prefix, then `pat`'s characters, then a tail. -/
theorem strHasSub_iff (s pat : String) :
    strHasSub s pat = true ↔ ∃ x y, s.data = x ++ pat.data ++ y := by
  unfold strHasSub
  rw [List.any_eq_true]
  constructor
  · rintro ⟨i, -, hpre⟩
    rw [List.isPrefixOf_iff_prefix] at hpre
    obtain ⟨y, hy⟩ := hpre
    refine ⟨s.data.take i, y, ?_⟩
    rw [List.append_assoc, hy, List.take_append_drop]
  · rintro ⟨x, y, hxy⟩
    refine ⟨x.length, ?_, ?_⟩
    · rw [List.mem_range]
      have := congrArg List.length hxy
      simp only [List.length_append] at this
      omega
    · rw [List.isPrefixOf_iff_prefix, hxy, List.append_assoc, List.drop_left]
      exact List.prefix_append _ _

/-- Substring containment is transitive. -/
theorem strHasSub_trans {s m pat : String} (h1 : strHasSub s m = true)
    (h2 : strHasSub m pat = true) : strHasSub s pat = true := by
  rw [strHasSub_iff] at *
  obtain ⟨x, y, hxy⟩ := h1
  obtain ⟨u, v, huv⟩ := h2
  exact ⟨x ++ u, v ++ y, by rw [hxy, huv]; simp [List.append_assoc]⟩

/-- Every string occurs in itself. -/
theorem strHasSub_refl (s : String) : strHasSub s s = true := by
  rw [strHasSub_iff]
  exact ⟨[], [], by simp⟩

/-- Containment is preserved by prepending text. -/
theorem strHasSub_append_left (x s pat : String) (h : strHasSub s pat = true) :
    strHasSub (x ++ s) pat = true := by
  rw [strHasSub_iff] at *
  obtain ⟨u, v, huv⟩ := h
  exact ⟨x.data ++ u, v, by rw [String.data_append, huv]; simp [List.append_assoc]⟩

/-- Containment is preserved by appending text. -/
theorem strHasSub_append_right (s y pat : String) (h : strHasSub s pat = true) :
    strHasSub (s ++ y) pat = true := by
  rw [strHasSub_iff] at *
  obtain ⟨u, v, huv⟩ := h
  exact ⟨u, v ++ y.data, by rw [String.data_append, huv]; simp [List.append_assoc]⟩

/-- The assembled prompt always embeds the markdown context table: the
template interpolates `context_data` verbatim (app.py line 170), in the
no-match case just as in the historic case. -/
theorem prompt_contains_context_data (q : String) (t : Table) :
    strHasSub (prompt q t) (context_data q t) = true := by
  unfold prompt
  apply strHasSub_append_right
  apply strHasSub_append_right
  apply strHasSub_append_right
  apply strHasSub_append_right
  apply strHasSub_append_right
  apply strHasSub_append_right
  apply strHasSub_append_right
  apply strHasSub_append_right
  apply strHasSub_append_right
  apply strHasSub_append_right
  apply strHasSub_append_right
  apply strHasSub_append_right
  apply strHasSub_append_right
  apply strHasSub_append_right
  apply strHasSub_append_right
  apply strHasSub_append_right
  apply strHasSub_append_right
  apply strHasSub_append_right
  apply strHasSub_append_right
  apply strHasSub_append_right
  apply strHasSub_append_right
  apply strHasSub_append_right
  exact strHasSub_append_left _ _ _ (strHasSub_refl _)

/-- C1: for every query string and every table, the relevance score attached to a
record equals the number of distinct terms of the normalized query (lowercased,
commas removed, split on whitespace, duplicates collapsed into a set) that occur as
substrings anywhere in the lowercased stringification of that record's column
values, each term counted at most once: the score column computed by
`calculate_score` coincides, record by record, with the spec-worded count
`spec_score`. -/
theorem score_table_eq_spec_score (q : String) (t : Table) :
    score_table q t = t.rows.enum.map (fun p => ⟨p.1, spec_score q p.2⟩) := by
  unfold score_table scores
  rw [List.enum_map, List.map_map]
  apply List.map_congr_left
  intro p _
  simp [Prod.map, calculate_score_eq_spec_score q p.2]

/-! ### Sorting facts -/

theorem sorted_rows_perm (q : String) (t : Table) :
    (sorted_rows q t).Perm (score_table q t) :=
  List.perm_insertionSort rankLE (score_table q t)

theorem sorted_rows_sorted (q : String) (t : Table) :
    List.Pairwise rankLE (sorted_rows q t) :=
  List.sorted_insertionSort rankLE (score_table q t)

theorem score_table_map_idx (q : String) (t : Table) :
    (score_table q t).map Scored.idx = List.range t.rows.length := by
  unfold score_table scores
  rw [List.map_map]
  have h : (Scored.idx ∘ fun p : Nat × Nat => (⟨p.1, p.2⟩ : Scored)) = Prod.fst := rfl
  rw [h, List.enum_map_fst, List.length_map]

theorem score_table_length (q : String) (t : Table) :
    (score_table q t).length = t.rows.length := by
  have := congrArg List.length (score_table_map_idx q t)
  simpa using this

theorem sorted_rows_length (q : String) (t : Table) :
    (sorted_rows q t).length = t.rows.length := by
  rw [(sorted_rows_perm q t).length_eq, score_table_length]

/-- C3: for every query and table, the Context Set has exactly
min(3, row count) records, and the empty table yields the empty selection
rather than a failure (the embedding is total: no error case exists). -/
theorem top_matches_length_min (q : String) (t : Table) :
    (top_matches q t).length = min 3 t.rows.length
    ∧ (t.rows = [] → top_matches q t = []) := by
  constructor
  · unfold top_matches
    rw [List.length_take, sorted_rows_length]
  · intro h
    unfold top_matches
    have hz : (sorted_rows q t).length = 0 := by rw [sorted_rows_length, h]; rfl
    rw [List.length_eq_zero.mp hz]
    rfl

theorem top_matches_length_min_witness :
    top_matches "any query" (Table.mk required_columns []) = [] :=
  (top_matches_length_min "any query" (Table.mk required_columns [])).2 rfl

/-! ### The no-match flag (claim C4) -/

theorem foldr_max_eq_zero (l : List Nat) : l.foldr max 0 = 0 ↔ ∀ x ∈ l, x = 0 := by
  induction l with
  | nil => simp
  | cons a l ih =>
    simp only [List.foldr_cons, Nat.max_eq_zero_iff, List.mem_cons, ih]
    constructor
    · rintro ⟨ha, hl⟩ x (rfl | hx)
      · exact ha
      · exact hl x hx
    · intro h
      exact ⟨h a (Or.inl rfl), fun x hx => h x (Or.inr hx)⟩

theorem max_match_score_eq_zero (q : String) (t : Table) :
    max_match_score q t = 0 ↔ ∀ s ∈ top_matches q t, s.score = 0 := by
  unfold max_match_score
  rw [foldr_max_eq_zero]
  constructor
  · intro h s hs
    exact h s.score (List.mem_map_of_mem _ hs)
  · rintro h x hx
    obtain ⟨s, hs, rfl⟩ := List.mem_map.mp hx
    exact h s hs

theorem all_top_scores_zero_iff (q : String) (t : Table) :
    (∀ s ∈ top_matches q t, s.score = 0) ↔ ∀ s ∈ score_table q t, s.score = 0 := by
  constructor
  · intro h s hs
    rw [← (sorted_rows_perm q t).mem_iff] at hs
    rcases hsr : sorted_rows q t with _ | ⟨a, rest⟩
    · rw [hsr] at hs
      cases hs
    · have hsorted := sorted_rows_sorted q t
      rw [hsr] at hsorted hs
      have ha : a ∈ top_matches q t := by
        unfold top_matches
        rw [hsr, List.take_succ_cons]
        exact List.mem_cons_self a _
      have ha0 : a.score = 0 := h a ha
      rcases List.mem_cons.mp hs with rfl | hrest
      · exact ha0
      · have hr : rankLE a s := (List.pairwise_cons.mp hsorted).1 s hrest
        unfold rankLE at hr
        omega
  · intro h s hs
    apply h
    exact (sorted_rows_perm q t).subset ((List.take_sublist 3 _).subset hs)

/-- C4 (amended): for every query and table the "no match" flag is exact — the
result is flagged "General Logic" precisely when every record's score is 0 (no
normalized query term occurs in any row), and "Historic Matches" precisely
otherwise — but in the no-match case the prompt does not substitute a
generic-logic instruction for the concrete rows: the markdown table of the
selected example rows is embedded verbatim in the prompt in either mode, only
the parenthesised mode label changes. -/
theorem context_type_no_match_flag (q : String) (t : Table) :
    (context_type q t = "General Logic" ↔ ∀ s ∈ score_table q t, s.score = 0)
    ∧ (context_type q t = "Historic Matches" ↔ ¬ ∀ s ∈ score_table q t, s.score = 0)
    ∧ strHasSub (prompt q t) (context_data q t) = true := by
  have hiff : max_match_score q t = 0 ↔ ∀ s ∈ score_table q t, s.score = 0 := by
    rw [max_match_score_eq_zero, all_top_scores_zero_iff]
  refine ⟨?_, ?_, prompt_contains_context_data q t⟩
  · unfold context_type
    rcases Nat.eq_zero_or_pos (max_match_score q t) with h | h
    · rw [if_neg (by omega)]
      exact ⟨fun _ => hiff.mp h, fun _ => rfl⟩
    · rw [if_pos h]
      constructor
      · intro he
        exact absurd he (by decide)
      · intro hz
        exact absurd (hiff.mpr hz) (by omega)
  · unfold context_type
    rcases Nat.eq_zero_or_pos (max_match_score q t) with h | h
    · rw [if_neg (by omega)]
      constructor
      · intro he
        exact absurd he (by decide)
      · intro hz
        exact absurd (hiff.mp h) hz
    · rw [if_pos h]
      constructor
      · intro _ hz
        exact absurd (hiff.mpr hz) (by omega)
      · intro _
        rfl

/-- A one-row table none of whose cells contains the query `zzzz`: the
no-match degenerate case of claim C4. -/
def c4Table : Table :=
  Table.mk required_columns [["Alphacell", "Objective-one", "Feature-one", "Selected-one"]]

set_option maxRecDepth 16384 in
theorem context_type_no_match_flag_witness :
    strHasSub (prompt "zzzz" c4Table) (context_data "zzzz" c4Table) = true :=
  (context_type_no_match_flag "zzzz" c4Table).2.2

set_option maxRecDepth 16384 in
/-- C4 counterexample: in the concrete no-match scenario (query `zzzz`
against `c4Table`, every score 0) the result is flagged "General Logic", yet
the assembled prompt still embeds the concrete example rows — the cell text
`Alphacell` occurs verbatim in the prompt — refuting "falls back to a
generic-logic instruction instead of embedding the concrete example rows". -/
theorem no_match_prompt_still_embeds_rows :
    context_type "zzzz" c4Table = "General Logic"
    ∧ strHasSub (prompt "zzzz" c4Table) "Alphacell" = true := by
  refine ⟨by decide, strHasSub_trans (prompt_contains_context_data "zzzz" c4Table) ?_⟩
  decide

/-! ### Header validation (claim C5) -/

/-- C5: when the uploaded table misses at least one required column, the run
halts with the error naming exactly the missing columns — a column is listed
iff it is required and absent from the header — and neither scoring, prompt
assembly nor generation is attempted: the outcome stays the header error for
every provider behaviour, query text and button state. -/
theorem missing_headers_halt (inp : AppInput) (h : missing inp.table ≠ []) :
    app_run inp = Outcome.errMissingHeaders (missing inp.table)
    ∧ (∀ c, c ∈ missing inp.table ↔
        c ∈ required_columns ∧ inp.table.cols.contains c = false)
    ∧ (∀ g2 ui btn, app_run { inp with gen := g2, user_input := ui, generate_btn := btn }
        = Outcome.errMissingHeaders (missing inp.table)) := by
  refine ⟨?_, ?_, ?_⟩
  · unfold app_run
    rw [if_pos h]
  · intro c
    unfold missing
    rw [List.mem_filter]
    simp
  · intro g2 ui btn
    unfold app_run
    rw [if_pos h]

/-- A table whose header misses exactly `Product Features`. -/
def c5Table : Table :=
  Table.mk ["Client Requirements", "Client Objectives", "Why this Product was Selected"]
    [["r", "o", "w"]]

/-- An action on `c5Table` with everything else in place: key, query, model,
button pressed, provider ready to answer. -/
def c5Input : AppInput :=
  AppInput.mk c5Table "key" "a query" (some "gemini-1.5-flash") true (fun _ => .ok "draft")

theorem missing_headers_halt_witness :
    missing c5Table = ["Product Features"]
    ∧ app_run c5Input = Outcome.errMissingHeaders (missing c5Input.table) :=
  ⟨by decide, (missing_headers_halt c5Input (by decide)).1⟩

/-! ### The retry policy (claims C6 and C7) -/

theorem run_ai_attempts_le_three (g : Provider) : (run_ai g).attempts ≤ 3 := by
  unfold run_ai
  cases g 1 with
  | ok s1 =>
    show 1 ≤ 3
    omega
  | error e1 =>
    cases g 2 with
    | ok s2 =>
      show 2 ≤ 3
      omega
    | error e2 =>
      cases g 3 with
      | ok s3 => exact Nat.le_refl 3
      | error e3 => exact Nat.le_refl 3

/-- C6: a provider call failing with a retryable error on the first two
attempts and succeeding on the third returns the successful result (not an
error); no call makes more than 3 attempts; and the backoff waits between
attempts follow `wait_exponential(multiplier=1, min=2, max=10)`: 2 then 4. -/
theorem retry_two_failures_then_success (gen : Provider) (e1 e2 : ProviderErr)
    (s : String) (h1 : gen 1 = .error e1) (h2 : gen 2 = .error e2)
    (h3 : gen 3 = .ok s) :
    (run_ai gen).result = .ok s
    ∧ (run_ai gen).attempts = 3
    ∧ (∀ g : Provider, (run_ai g).attempts ≤ 3)
    ∧ (run_ai gen).waits = [wait_exponential 1 2 10 1, wait_exponential 1 2 10 2]
    ∧ (run_ai gen).waits = [2, 4] := by
  unfold run_ai
  rw [h1, h2, h3]
  exact ⟨rfl, rfl, run_ai_attempts_le_three, rfl, rfl⟩

/-- A provider failing its first two attempts with a rate-limit error and
succeeding on the third. -/
def c6Gen : Provider :=
  fun n => if n < 3 then .error (ProviderErr.mk "ResourceExhausted") else .ok "draft"

theorem retry_two_failures_then_success_witness :
    (run_ai c6Gen).result = .ok "draft"
    ∧ (run_ai c6Gen).attempts = 3
    ∧ (∀ g : Provider, (run_ai g).attempts ≤ 3)
    ∧ (run_ai c6Gen).waits = [wait_exponential 1 2 10 1, wait_exponential 1 2 10 2]
    ∧ (run_ai c6Gen).waits = [2, 4] :=
  retry_two_failures_then_success c6Gen (ProviderErr.mk "ResourceExhausted")
    (ProviderErr.mk "ResourceExhausted") "draft" rfl rfl rfl

/-- A provider failing every attempt with the model-not-found error. -/
def nfGen : Provider := fun _ => .error (ProviderErr.mk "NotFound")

/-- C7 counterexample: a provider call failing with the non-retryable "model
not found" condition is NOT surfaced immediately: tenacity's default predicate
retries every exception, so three provider attempts are made (with backoff
waits 2 and 4), not one. -/
theorem notfound_retried_three_attempts :
    (run_ai nfGen).attempts = 3 ∧ (run_ai nfGen).waits = [2, 4]
    ∧ (run_ai nfGen).attempts ≠ 1 :=
  ⟨rfl, rfl, by decide⟩

set_option maxRecDepth 16384 in
/-- C7 (amended): a provider failing every attempt with the "model not found"
condition is retried like any other error, its failure surfacing only after
the full 3-attempt retry cycle; the surfaced message is then classified as the
model-unavailable warning, distinguished from the quota-exhausted warning and
the generic technical error. -/
theorem notfound_surfaced_after_full_retries (gen : Provider) (e : ProviderErr)
    (h1 : gen 1 = .error e) (h2 : gen 2 = .error e) (h3 : gen 3 = .error e)
    (hn : e = ProviderErr.mk "NotFound") :
    (run_ai gen).result = .error e
    ∧ (run_ai gen).attempts = 3
    ∧ classify_error (retry_err_msg e) = ErrClass.modelUnavailable
    ∧ classify_error "RetryError[<Future at 0x0 state=finished raised ResourceExhausted>]"
        = ErrClass.quotaExhausted
    ∧ classify_error "RetryError[<Future at 0x0 state=finished raised InternalServerError>]"
        = ErrClass.generic := by
  subst hn
  refine ⟨?_, ?_, by decide, by decide, by decide⟩
  · unfold run_ai
    rw [h1, h2, h3]
  · unfold run_ai
    rw [h1, h2, h3]

theorem notfound_surfaced_after_full_retries_witness :
    (run_ai nfGen).result = .error (ProviderErr.mk "NotFound")
    ∧ (run_ai nfGen).attempts = 3
    ∧ classify_error (retry_err_msg (ProviderErr.mk "NotFound")) = ErrClass.modelUnavailable
    ∧ classify_error "RetryError[<Future at 0x0 state=finished raised ResourceExhausted>]"
        = ErrClass.quotaExhausted
    ∧ classify_error "RetryError[<Future at 0x0 state=finished raised InternalServerError>]"
        = ErrClass.generic :=
  notfound_surfaced_after_full_retries nfGen (ProviderErr.mk "NotFound") rfl rfl rfl rfl

/-! ### Sidebar degradation (claim C8) and empty query (claim C9) -/

/-- A table with exactly the four required columns and one row. -/
def okTable : Table :=
  Table.mk required_columns [["refinance home", "lower rate", "offset account", "best fit"]]

/-- C8 counterexample: in a session whose model listing fails, the sidebar
selects no model at all (there is no default model guess — it shows the
connection error instead) and the generate action is blocked with the
select-a-model error even though the provider itself would succeed: the user
cannot proceed to generation. -/
theorem listing_failure_blocks_generation :
    sidebar "key" (Except.error "ServiceUnavailable") none = SidebarResult.mk none true
    ∧ app_run (AppInput.mk okTable "key" "a deal"
        (sidebar "key" (Except.error "ServiceUnavailable") none).selected_model true
        (fun _ => .ok "draft")) = Outcome.errNoModel := by
  exact ⟨rfl, by decide⟩

/-- C8 (amended): when listing the provider's models fails,
`get_available_models` swallows the exception into the empty list, the sidebar
shows the connection-failure error and selects no model, and a generate action
without a selected model halts with the select-a-model error: the workflow is
blocked, with no fallback to a default model guess. -/
theorem listing_failure_no_model (key err : String) (hkey : key ≠ "")
    (override : Option Nat) (inp : AppInput) (hm : missing inp.table = [])
    (hsel : inp.selected_model = none) (hbtn : inp.generate_btn = true)
    (hk : inp.api_key ≠ "") (hui : inp.user_input ≠ "") :
    get_available_models (Except.error err) = []
    ∧ sidebar key (Except.error err) override = SidebarResult.mk none true
    ∧ app_run inp = Outcome.errNoModel := by
  refine ⟨rfl, ?_, ?_⟩
  · unfold sidebar
    rw [if_neg hkey]
    rfl
  · unfold app_run
    rw [hm]
    rw [if_neg (by simp)]
    rw [if_pos ⟨by rw [hbtn], hk, hui⟩]
    rw [hsel]

theorem listing_failure_no_model_witness :
    get_available_models (Except.error "timeout") = []
    ∧ sidebar "key" (Except.error "timeout") none = SidebarResult.mk none true
    ∧ app_run (AppInput.mk okTable "key" "deal" none true (fun _ => .ok "draft"))
        = Outcome.errNoModel :=
  listing_failure_no_model "key" "timeout" (by decide) none
    (AppInput.mk okTable "key" "deal" none true (fun _ => .ok "draft"))
    (by decide) rfl rfl (by decide) (by decide)

/-- C9 counterexample: the generate button fired with a credential present and
an empty query renders nothing at all — no validation error, no warning, no
generation: the claimed immediate input-validation error does not exist. -/
theorem empty_query_silently_ignored :
    app_run (AppInput.mk okTable "key" "" (some "gemini-1.5-flash") true
      (fun _ => .ok "draft")) = Outcome.noAction := by
  decide

/-- C9 (amended): with a credential present and an empty query, no scoring and
no generation occur — but no error is reported either: the guards of both
branches (app.py lines 140 and 208) are false, so the script silently renders
nothing and waits for the next interaction. -/
theorem empty_query_no_action (inp : AppInput) (hm : missing inp.table = [])
    (hui : inp.user_input = "") (hk : inp.api_key ≠ "") :
    app_run inp = Outcome.noAction := by
  unfold app_run
  rw [hm]
  rw [if_neg (by simp)]
  rw [if_neg ?hc1]
  case hc1 =>
    rintro ⟨-, -, hne⟩
    exact hne hui
  rw [if_neg ?hc2]
  case hc2 =>
    rintro ⟨-, hk0⟩
    exact hk hk0

theorem empty_query_no_action_witness :
    app_run (AppInput.mk okTable "key2" "" (some "gemini-1.5-flash") true
      (fun _ => .ok "x")) = Outcome.noAction :=
  empty_query_no_action
    (AppInput.mk okTable "key2" "" (some "gemini-1.5-flash") true (fun _ => .ok "x"))
    (by decide) rfl (by decide)

/-! ### Extra columns and the context table (claim C10) -/

theorem top_matches_idx_lt (q : String) (t : Table) :
    ∀ s ∈ top_matches q t, s.idx < t.rows.length := by
  intro s hs
  have hmem : s ∈ score_table q t :=
    (sorted_rows_perm q t).subset ((List.take_sublist 3 _).subset hs)
  have hidx : s.idx ∈ (score_table q t).map Scored.idx := List.mem_map_of_mem _ hmem
  rw [score_table_map_idx] at hidx
  exact List.mem_range.mp hidx

/-- C10: extra columns beyond the four required ones influence only the
scores, never the prompt's reference data: whenever two tables yield the same
score column and agree on the required-column projection of every row (in
particular, when they differ only in extra columns), the top-3 selection and
the markdown context table embedded in the prompt coincide — the markdown is
built from the four required columns of the selected rows alone. -/
theorem context_data_ignores_extra_columns (q : String) (t1 t2 : Table)
    (hs : scores q t1 = scores q t2)
    (hp : t1.rows.map (proj_required t1.cols) = t2.rows.map (proj_required t2.cols)) :
    top_matches q t1 = top_matches q t2 ∧ context_data q t1 = context_data q t2 := by
  have hst : score_table q t1 = score_table q t2 := by
    unfold score_table
    rw [hs]
  have htm : top_matches q t1 = top_matches q t2 := by
    unfold top_matches sorted_rows
    rw [hst]
  have hlen : t1.rows.length = t2.rows.length := by
    have h := congrArg List.length hp
    simpa using h
  refine ⟨htm, ?_⟩
  unfold context_data match_rows
  rw [← htm]
  congr 1
  rw [List.map_map, List.map_map]
  apply List.map_congr_left
  intro a ha
  have h1 : a.idx < t1.rows.length := top_matches_idx_lt q t1 a ha
  have h2 : a.idx < t2.rows.length := hlen ▸ h1
  show proj_required t1.cols (t1.rows.getD a.idx [])
      = proj_required t2.cols (t2.rows.getD a.idx [])
  rw [List.getD_eq_getElem _ _ h1, List.getD_eq_getElem _ _ h2]
  have hq := congrArg (fun l => l[a.idx]?) hp
  simp only [List.getElem?_map, List.getElem?_eq_getElem h1,
    List.getElem?_eq_getElem h2, Option.map_some'] at hq
  exact Option.some.inj hq

/-- Two tables agreeing on the four required columns and differing only in an
extra `Notes` column (variant one). -/
def c10T1 : Table :=
  Table.mk (required_columns ++ ["Notes"])
    [["refinance home", "lower rate", "offset account", "best fit", "note-one"]]

/-- Variant two of the table: the same required cells, another `Notes` value
that matches the query no better. -/
def c10T2 : Table :=
  Table.mk (required_columns ++ ["Notes"])
    [["refinance home", "lower rate", "offset account", "best fit", "zzz"]]

set_option maxRecDepth 16384 in
theorem context_data_ignores_extra_columns_witness :
    top_matches "refinance" c10T1 = top_matches "refinance" c10T2
    ∧ context_data "refinance" c10T1 = context_data "refinance" c10T2 :=
  context_data_ignores_extra_columns "refinance" c10T1 c10T2 (by decide) (by decide)

end FF
